import Mathlib

/-
Verification of the NetworkGraph component (src/NetworkGraph.tsx, src/App.tsx,
src/config).  The TypeScript source is shallowly embedded: JavaScript numbers
are modelled as rationals (ℚ) where all values are finite, and as the sum type
`JsNum` where non-finite values matter; JS `undefined`/`null` fields are
`Option`; d3 selections' per-element inline styles are explicit lists of style
records (`VisualState`).  Every definition is translated from the source file,
with line references in the doc comments.
-/

namespace NG

/-- A JavaScript number: either a finite value (modelled as a rational) or one
of the non-finite values NaN, Infinity, -Infinity. -/
inductive JsNum where
  | fin (q : ℚ)
  | nan
  | inf
  | ninf
deriving DecidableEq

/-- Edge input record (interface EdgeData, NetworkGraph.tsx lines 27-31),
parametric in the numeric type so that both finite-only (ℚ) and possibly
non-finite (JsNum) values can be considered. -/
structure EdgeData (α : Type) where
  source : String
  target : String
  value : α
deriving DecidableEq

/-- Graph node (interface Node, NetworkGraph.tsx lines 36-42).  The simulation
fields x, y (position) and fx, fy (fixed position while dragging) are
`Option ℚ` because they are `undefined`/`null` until set. -/
structure Node (α : Type) where
  id : String
  originalName : String
  group : String
  value : α
  visible : Bool
  x : Option ℚ := none
  y : Option ℚ := none
  fx : Option ℚ := none
  fy : Option ℚ := none
deriving DecidableEq

/-- A link endpoint is `string | Node` (interface Link, lines 48-49): a raw id
before d3's forceLink resolves it, a node object afterwards. -/
inductive Endpoint (α : Type) where
  | ref (id : String)
  | node (n : Node α)
deriving DecidableEq

/-- Graph link (interface Link, NetworkGraph.tsx lines 47-51). -/
structure Link (α : Type) where
  source : Endpoint α
  target : Endpoint α
  value : α
deriving DecidableEq

/-- Node construction (NetworkGraph.tsx lines 159-165): one node per entry of
`nodeData`, with id = originalName = group = the key, value = the mapped
value, and `visible` initially true. -/
def buildNodes {α : Type} (nodeData : List (String × α)) : List (Node α) :=
  nodeData.map fun kv =>
    { id := kv.1, originalName := kv.1, group := kv.1, value := kv.2, visible := true }

/-- Link construction (NetworkGraph.tsx lines 168-176): `edgeData` filtered to
records whose source and target ids both occur among the constructed nodes,
then mapped to `Link` records with string endpoints. -/
def buildLinks {α : Type} (nodeData : List (String × α)) (edgeData : List (EdgeData α)) :
    List (Link α) :=
  let nodes := buildNodes nodeData
  (edgeData.filter fun d =>
      (nodes.any fun n => n.id == d.source) && (nodes.any fun n => n.id == d.target)).map
    fun d => { source := Endpoint.ref d.source, target := Endpoint.ref d.target, value := d.value }

/-- On a list of nodes built from `nodeData`, the `some(...)` id test of the
edge filter (line 170) is exactly membership of the id among the keys. -/
theorem buildNodes_any_id {α : Type} (nodeData : List (String × α)) (s : String) :
    ((buildNodes nodeData).any fun n => n.id == s) = decide (s ∈ nodeData.map Prod.fst) := by
  rw [Bool.eq_iff_iff]
  simp only [List.any_eq_true, beq_iff_eq, decide_eq_true_eq, buildNodes, List.mem_map]
  constructor
  · rintro ⟨n, ⟨kv, hkv, rfl⟩, h⟩
    exact ⟨kv, hkv, h⟩
  · rintro ⟨kv, hkv, rfl⟩
    exact ⟨_, ⟨kv, hkv, rfl⟩, rfl⟩

/-- C1.  Model construction: `buildNodes` produces exactly one node per entry
of `nodeData` in order (projecting each node back to its (id, value) pair
recovers the input), each node visible with originalName = group = id and an
id drawn from the keys; `buildLinks` keeps exactly the edges whose source and
target ids both occur among the keys, in their original relative order (it
equals the order-preserving filter of `edgeData` by that membership test,
embedded as links); construction is total (both functions are plain Lean
functions) and empty input yields empty node and link sets. -/
theorem C1_model_construction (nodeData : List (String × ℚ)) (edgeData : List (EdgeData ℚ)) :
    ((buildNodes nodeData).map fun n => (n.id, n.value)) = nodeData ∧
    (∀ n ∈ buildNodes nodeData,
      n.visible = true ∧ n.originalName = n.id ∧ n.group = n.id ∧ n.id ∈ nodeData.map Prod.fst) ∧
    buildLinks nodeData edgeData =
      (edgeData.filter fun d =>
          decide (d.source ∈ nodeData.map Prod.fst) && decide (d.target ∈ nodeData.map Prod.fst)).map
        (fun d =>
          { source := Endpoint.ref d.source, target := Endpoint.ref d.target, value := d.value }) ∧
    buildNodes ([] : List (String × ℚ)) = [] ∧
    buildLinks ([] : List (String × ℚ)) [] = [] := by
  refine ⟨?_, ?_, ?_, rfl, rfl⟩
  · induction nodeData with
    | nil => rfl
    | cons kv rest ih =>
        simp only [buildNodes, List.map_cons] at ih ⊢
        rw [ih]
  · intro n hn
    simp only [buildNodes, List.mem_map] at hn
    obtain ⟨kv, hkv, rfl⟩ := hn
    refine ⟨rfl, rfl, rfl, ?_⟩
    exact List.mem_map.mpr ⟨kv, hkv, rfl⟩
  · simp only [buildLinks]
    have h : ∀ d : EdgeData ℚ,
        (((buildNodes nodeData).any fun n => n.id == d.source) &&
          ((buildNodes nodeData).any fun n => n.id == d.target)) =
        (decide (d.source ∈ nodeData.map Prod.fst) &&
          decide (d.target ∈ nodeData.map Prod.fst)) := by
      intro d
      rw [buildNodes_any_id, buildNodes_any_id]
    rw [List.filter_congr fun d _ => h d]

/-- Witness for C1 at a concrete input: nodes A, B and edges A→B (kept) and
A→C (dropped, C missing). -/
theorem C1_model_construction_witness :
    ((buildNodes [("A", (1 : ℚ)), ("B", 2)]).map fun n => (n.id, n.value)) =
      [("A", (1 : ℚ)), ("B", 2)] ∧
    buildLinks [("A", (1 : ℚ)), ("B", 2)]
        [⟨"A", "B", 5⟩, ⟨"A", "C", 7⟩] =
      [{ source := Endpoint.ref "A", target := Endpoint.ref "B", value := 5 }] := by
  have h := C1_model_construction [("A", (1 : ℚ)), ("B", 2)] [⟨"A", "B", 5⟩, ⟨"A", "C", 7⟩]
  refine ⟨h.1, ?_⟩
  rw [h.2.2.1]
  rfl

/- Configuration constants (src/config, `const config`), as exact rationals. -/
namespace config

def minNodeSize : ℚ := 5
def maxNodeSize : ℚ := 20
def minLinkWidth : ℚ := 5 / 4
def maxLinkWidth : ℚ := 3
def defaultLinkOpacity : ℚ := 3 / 5
def highlightOpacity : ℚ := 1
def fadedOpacity : ℚ := 1 / 20
def legendOpacity : ℚ := 1 / 2
def simulationAlpha : ℚ := 1 / 200

end config

/-- The three values `currentFilter` takes (initial state `'all'`, lines 56,
142-144: the only writers set `'negative'`, `'positive'` or `'all'`). -/
inductive FilterMode where
  | all
  | positive
  | negative
deriving DecidableEq

/-- Sign-filter predicate on a link (NetworkGraph.tsx lines 66-75):
`currentFilter === 'all' || (currentFilter === 'positive' && link.value >= 0)
|| (currentFilter === 'negative' && link.value < 0)`. -/
def isLinkVisible (filter : FilterMode) (l : Link ℚ) : Bool :=
  filter == FilterMode.all ||
    (filter == FilterMode.positive && decide (0 ≤ l.value)) ||
    (filter == FilterMode.negative && decide (l.value < 0))

/-- Extract the id of a `string | Node` endpoint, as done inline at lines
386-387 and 436-437: `typeof d.source === 'object' ? d.source.id : d.source`. -/
def endpointId {α : Type} : Endpoint α → String
  | Endpoint.ref s => s
  | Endpoint.node n => n.id

/-- The display decision of the visibility effect (NetworkGraph.tsx lines
435-442), as a Boolean (`true` = `'inline'`, `false` = `'none'`): look up each
endpoint id in `nodesArray`; if either lookup misses or the found node is not
visible the link is hidden, otherwise the sign filter decides. -/
def linkDisplay (nodesArray : List (Node ℚ)) (filter : FilterMode) (l : Link ℚ) : Bool :=
  let sourceVisible :=
    (nodesArray.find? fun n => n.id == endpointId l.source).elim false Node.visible
  let targetVisible :=
    (nodesArray.find? fun n => n.id == endpointId l.target).elim false Node.visible
  if !sourceVisible || !targetVisible then false
  else isLinkVisible filter l

/-- C2.  Link renderability: when both endpoints resolve to nodes `ns`, `nt`
of the node array, the render decision is exactly `ns.visible && nt.visible &&
(sign filter)`; the sign class matched by `positive` is `0 ≤ value`, the one
matched by `negative` is `value < 0`, `all` matches any sign; and hiding
either endpoint makes the decision false under every filter mode. -/
theorem C2_link_renderability (nodesArray : List (Node ℚ)) (filter : FilterMode) (l : Link ℚ)
    (ns nt : Node ℚ)
    (hs : (nodesArray.find? fun n => n.id == endpointId l.source) = some ns)
    (ht : (nodesArray.find? fun n => n.id == endpointId l.target) = some nt) :
    linkDisplay nodesArray filter l = (ns.visible && nt.visible && isLinkVisible filter l) ∧
    isLinkVisible FilterMode.all l = true ∧
    (isLinkVisible FilterMode.positive l = true ↔ 0 ≤ l.value) ∧
    (isLinkVisible FilterMode.negative l = true ↔ l.value < 0) ∧
    (ns.visible = false ∨ nt.visible = false → linkDisplay nodesArray filter l = false) := by
  have hdisp : linkDisplay nodesArray filter l =
      (ns.visible && nt.visible && isLinkVisible filter l) := by
    simp only [linkDisplay, hs, ht, Option.elim_some]
    cases hvs : ns.visible <;> cases hvt : nt.visible <;> simp
  refine ⟨hdisp, rfl, ?_, ?_, ?_⟩
  · simp [isLinkVisible]
  · simp [isLinkVisible]
  · intro hcase
    rw [hdisp]
    rcases hcase with h | h <;> simp [h]

/-- Witness for C2: nodes A (visible) and B (hidden), link A→B with value 2;
the render decision is false although the sign filter `positive` matches. -/
theorem C2_link_renderability_witness :
    (linkDisplay
        [{ id := "A", originalName := "A", group := "A", value := (1 : ℚ), visible := true },
         { id := "B", originalName := "B", group := "B", value := (2 : ℚ), visible := false }]
        FilterMode.positive
        { source := Endpoint.ref "A", target := Endpoint.ref "B", value := (2 : ℚ) }) = false := by
  have h := C2_link_renderability
    [{ id := "A", originalName := "A", group := "A", value := (1 : ℚ), visible := true },
     { id := "B", originalName := "B", group := "B", value := (2 : ℚ), visible := false }]
    FilterMode.positive
    { source := Endpoint.ref "A", target := Endpoint.ref "B", value := (2 : ℚ) }
    { id := "A", originalName := "A", group := "A", value := (1 : ℚ), visible := true }
    { id := "B", originalName := "B", group := "B", value := (2 : ℚ), visible := false }
    (by decide) (by decide)
  exact h.2.2.2.2 (Or.inr rfl)

/-- Visibility toggle (NetworkGraph.tsx lines 81-85): the legend click handler
flips the clicked node's `visible` flag in place (the clicked node is a member
of the node array, identified here by its unique id) and re-publishes the
array. -/
def updateNodeVisibility {α : Type} (id : String) (nodes : List (Node α)) : List (Node α) :=
  nodes.map fun n => if n.id == id then { n with visible := !n.visible } else n

/-- C8.  Double toggle: for every id present in the model, toggling that
node's visibility twice restores every node's `visible` flag (in fact the
whole node array) to its original value. -/
theorem C8_double_toggle (nodes : List (Node ℚ)) (id : String)
    (_h : id ∈ nodes.map Node.id) :
    updateNodeVisibility id (updateNodeVisibility id nodes) = nodes := by
  clear _h
  induction nodes with
  | nil => rfl
  | cons n rest ih =>
      simp only [updateNodeVisibility, List.map_cons] at ih ⊢
      rw [ih]
      by_cases hn : n.id == id
      · simp [hn]
      · simp [hn]

/-- Witness for C8 at a concrete model: toggling node A twice is the
identity. -/
theorem C8_double_toggle_witness :
    updateNodeVisibility "A" (updateNodeVisibility "A" (buildNodes [("A", (1 : ℚ)), ("B", 2)])) =
      buildNodes [("A", (1 : ℚ)), ("B", 2)] :=
  C8_double_toggle (buildNodes [("A", (1 : ℚ)), ("B", 2)]) "A" (by decide)

/-- Absolute value of a finite JS number (`Math.abs`). -/
def jsAbs (q : ℚ) : ℚ := if q < 0 then -q else q

/-- The `d3.max(...) || 1` pattern of the scale domains (lines 187, 194):
`d3.max` yields `undefined` on an empty list, and `||` replaces any falsy
result — `undefined` or `0` — by `1`. -/
def jsOrOne (o : Option ℚ) : ℚ :=
  match o with
  | none => 1
  | some v => if v = 0 then 1 else v

/-- The node size scale (NetworkGraph.tsx lines 185-188): a d3 linear scale
with domain `[0, d3.max(nodes, d => d.value) || 1]` and range
`[minNodeSize, maxNodeSize]`, i.e. x ↦ min + (max − min) · x / domainMax. -/
def sizeScale (nodes : List (Node ℚ)) (x : ℚ) : ℚ :=
  let dmax := jsOrOne (nodes.map Node.value).max?
  config.minNodeSize + (config.maxNodeSize - config.minNodeSize) * (x / dmax)

/-- The link width scale (NetworkGraph.tsx lines 191-195): a d3 power scale
with exponent 3, domain `[0, d3.max(links, d => Math.abs(d.value)) || 1]` and
range `[minLinkWidth, maxLinkWidth]`, i.e. x ↦ min + (max − min) · x³ /
domainMax³. -/
def linkScale (links : List (Link ℚ)) (x : ℚ) : ℚ :=
  let dmax := jsOrOne ((links.map fun l => jsAbs l.value).max?)
  config.minLinkWidth + (config.maxLinkWidth - config.minLinkWidth) * (x ^ 3 / dmax ^ 3)

/-- Counterexample to C7: for the single node A with value 0, the maximum node
value is 0, but the size scale maps it to `minNodeSize` (= 5), not
`maxNodeSize` (= 20): `d3.max(...) || 1` treats the falsy maximum 0 like the
empty case and anchors the domain at [0, 1]. -/
theorem C7_counterexample :
    ((buildNodes [("A", (0 : ℚ))]).map Node.value).max? = some 0 ∧
    sizeScale (buildNodes [("A", (0 : ℚ))]) 0 = config.minNodeSize ∧
    sizeScale (buildNodes [("A", (0 : ℚ))]) 0 ≠ config.maxNodeSize := by
  refine ⟨rfl, ?_, ?_⟩
  · show (5 : ℚ) + (20 - 5) * (0 / 1) = 5
    norm_num
  · show (5 : ℚ) + (20 - 5) * (0 / 1) ≠ 20
    norm_num

/-- C7 as amended.  Whenever the maximum node value is nonzero, the size scale
maps 0 to `minNodeSize` and that maximum to `maxNodeSize`; whenever the
maximum absolute link value is nonzero, the width scale (cubic power map on
the absolute link value) maps 0 to `minLinkWidth` and that maximum to
`maxLinkWidth`; with no nodes/links (and likewise when the maximum is 0) the
domains fall back to [0, 1], mapping 1 to the respective maximum. -/
theorem C7_scale_boundaries (nodes : List (Node ℚ)) (links : List (Link ℚ)) (m w : ℚ)
    (hm : (nodes.map Node.value).max? = some m) (hm0 : m ≠ 0)
    (hw : ((links.map fun l => jsAbs l.value).max?) = some w) (hw0 : w ≠ 0) :
    sizeScale nodes 0 = config.minNodeSize ∧
    sizeScale nodes m = config.maxNodeSize ∧
    linkScale links 0 = config.minLinkWidth ∧
    linkScale links w = config.maxLinkWidth ∧
    sizeScale ([] : List (Node ℚ)) 1 = config.maxNodeSize ∧
    linkScale ([] : List (Link ℚ)) 1 = config.maxLinkWidth := by
  have hsz : ∀ x : ℚ, sizeScale nodes x =
      config.minNodeSize + (config.maxNodeSize - config.minNodeSize) * (x / m) := by
    intro x
    simp only [sizeScale, hm, jsOrOne, if_neg hm0]
  have hlk : ∀ x : ℚ, linkScale links x =
      config.minLinkWidth + (config.maxLinkWidth - config.minLinkWidth) * (x ^ 3 / w ^ 3) := by
    intro x
    simp only [linkScale, hw, jsOrOne, if_neg hw0]
  refine ⟨?_, ?_, ?_, ?_, ?_, ?_⟩
  · rw [hsz]; norm_num
  · rw [hsz, div_self hm0]; norm_num
  · rw [hlk]; norm_num
  · rw [hlk, div_self (pow_ne_zero 3 hw0)]; norm_num
  · show (5 : ℚ) + (20 - 5) * (1 / 1) = 20
    norm_num
  · show (5 : ℚ) / 4 + (3 - 5 / 4) * (1 ^ 3 / 1 ^ 3) = 3
    norm_num

/-- Witness for C7's amended statement: two nodes of values 10 and 20 and one
link of value -2, so the maxima are 20 and 2. -/
theorem C7_scale_boundaries_witness :
    sizeScale (buildNodes [("A", (10 : ℚ)), ("B", 20)]) 20 = config.maxNodeSize ∧
    linkScale (buildLinks [("A", (10 : ℚ)), ("B", 20)] [⟨"A", "B", -2⟩]) 2 =
      config.maxLinkWidth := by
  have h := C7_scale_boundaries (buildNodes [("A", (10 : ℚ)), ("B", 20)])
    (buildLinks [("A", (10 : ℚ)), ("B", 20)] [⟨"A", "B", -2⟩]) 20 2
    (by decide) (by norm_num) (by decide) (by norm_num)
  exact ⟨h.2.1, h.2.2.2.1⟩

/-- Safe x-coordinate lookup for a `string | Node` endpoint (NetworkGraph.tsx
lines 133-135): the node's x when the endpoint is an object with a defined x,
else 0. -/
def getNodeX (node : Endpoint ℚ) : ℚ :=
  match node with
  | Endpoint.node n =>
      match n.x with
      | some v => v
      | none => 0
  | Endpoint.ref _ => 0

/-- Safe y-coordinate lookup (NetworkGraph.tsx lines 137-139). -/
def getNodeY (node : Endpoint ℚ) : ℚ :=
  match node with
  | Endpoint.node n =>
      match n.y with
      | some v => v
      | none => 0
  | Endpoint.ref _ => 0

/-- C10.  The per-tick endpoint coordinate lookups are total: on a resolved
node object with a defined coordinate they return that coordinate, and they
return 0 both on an unresolved string id and on a node whose coordinate is
still undefined (so the tick handler never fails). -/
theorem C10_coordinate_lookup_total (n : Node ℚ) (v v' : ℚ) (s : String) :
    (n.x = some v → getNodeX (Endpoint.node n) = v) ∧
    (n.x = none → getNodeX (Endpoint.node n) = 0) ∧
    getNodeX (Endpoint.ref s) = 0 ∧
    (n.y = some v' → getNodeY (Endpoint.node n) = v') ∧
    (n.y = none → getNodeY (Endpoint.node n) = 0) ∧
    getNodeY (Endpoint.ref s) = 0 := by
  refine ⟨?_, ?_, rfl, ?_, ?_, rfl⟩ <;> intro h <;> simp [getNodeX, getNodeY, h]

/-- Witness for C10 at a concrete node with x defined and y undefined. -/
theorem C10_coordinate_lookup_total_witness :
    getNodeX (Endpoint.node
      { id := "A", originalName := "A", group := "A", value := (1 : ℚ), visible := true,
        x := some 7, y := none }) = 7 ∧
    getNodeY (Endpoint.node
      { id := "A", originalName := "A", group := "A", value := (1 : ℚ), visible := true,
        x := some 7, y := none }) = 0 ∧
    getNodeX (Endpoint.ref "B") = 0 := by
  have h := C10_coordinate_lookup_total
    { id := "A", originalName := "A", group := "A", value := (1 : ℚ), visible := true,
      x := some 7, y := none } 7 0 "B"
  exact ⟨h.1 rfl, h.2.2.2.2.1 rfl, h.2.2.1⟩

/-- The simulation state the drag handlers touch: the alpha target set by
`sim.alphaTarget(...)` and whether `restart()` has been invoked. -/
structure SimState where
  alphaTarget : ℚ
  running : Bool
deriving DecidableEq

/-- A d3 drag event as used by the handlers: `active` is true when another
drag gesture is still active, `x`/`y` is the pointer position. -/
structure DragEvent where
  active : Bool
  x : ℚ
  y : ℚ
deriving DecidableEq

/-- Drag start (NetworkGraph.tsx lines 291-298): if this is the only active
gesture, set the simulation's alpha target to `config.simulationAlpha` and
restart it; always fix the node at its current (possibly undefined)
coordinates. -/
def dragstarted (event : DragEvent) (sim : SimState) (d : Node ℚ) : SimState × Node ℚ :=
  (if event.active then sim else { alphaTarget := config.simulationAlpha, running := true },
   { d with fx := d.x, fy := d.y })

/-- Drag move (NetworkGraph.tsx lines 301-305): the fixed position follows the
pointer. -/
def dragged (event : DragEvent) (d : Node ℚ) : Node ℚ :=
  { d with fx := some event.x, fy := some event.y }

/-- Drag end (NetworkGraph.tsx lines 308-315): if this was the last active
gesture, reset the alpha target to 0; always release the fixed position. -/
def dragended (event : DragEvent) (sim : SimState) (d : Node ℚ) : SimState × Node ℚ :=
  (if event.active then sim else { sim with alphaTarget := 0 },
   { d with fx := none, fy := none })

/-- C9.  Drag protocol for a single drag gesture (no other gesture active):
drag-start fixes fx, fy at the node's current coordinates and restarts the
simulation with alpha target `simulationAlpha`, a small positive constant;
each drag event moves the fixed position to the pointer; drag-end releases
the fixed position (null) and resets the alpha target to zero. -/
theorem C9_drag_protocol (event : DragEvent) (sim : SimState) (d : Node ℚ)
    (h : event.active = false) :
    (dragstarted event sim d).2.fx = d.x ∧
    (dragstarted event sim d).2.fy = d.y ∧
    (dragstarted event sim d).1.alphaTarget = config.simulationAlpha ∧
    (dragstarted event sim d).1.running = true ∧
    0 < config.simulationAlpha ∧
    (dragged event d).fx = some event.x ∧
    (dragged event d).fy = some event.y ∧
    (dragended event sim d).2.fx = none ∧
    (dragended event sim d).2.fy = none ∧
    (dragended event sim d).1.alphaTarget = 0 := by
  simp only [dragstarted, dragged, dragended, h, Bool.false_eq_true, if_false, and_true,
    true_and]
  norm_num [config.simulationAlpha]

/-- A concrete positioned node used by witness statements. -/
def sampleNodeA : Node ℚ :=
  { id := "A", originalName := "A", group := "A", value := 1, visible := true,
    x := some 10, y := some 11 }

/-- A concrete single-gesture drag event used by witness statements. -/
def sampleDragEvent : DragEvent := { active := false, x := 3, y := 4 }

/-- A concrete simulation state used by witness statements. -/
def sampleSim : SimState := { alphaTarget := 0, running := false }

/-- Witness for C9 at a concrete event, simulation state and node. -/
theorem C9_drag_protocol_witness :
    (dragstarted sampleDragEvent sampleSim sampleNodeA).2.fx = some 10 ∧
    (dragstarted sampleDragEvent sampleSim sampleNodeA).1.alphaTarget =
      config.simulationAlpha ∧
    (dragended sampleDragEvent sampleSim sampleNodeA).1.alphaTarget = 0 := by
  have h := C9_drag_protocol sampleDragEvent sampleSim sampleNodeA rfl
  exact ⟨h.1, h.2.2.1, h.2.2.2.2.2.2.2.2.2⟩

/-- The list of values the renderer passes to the size scale: `sizeScale` is
applied to `d.value` for every node when computing circle radii (line 246),
collision radii (line 214) and label offsets (lines 263-264). -/
def sizeScaleArgs {α : Type} (nodes : List (Node α)) : List α := nodes.map Node.value

/-- Evidence for C4's failure: ingestion performs no finiteness validation.
`buildNodes`/`buildLinks` (lines 159-176) are the entire ingestion path —
their types have no error outcome — and on the input mapping A to NaN they
construct a node whose NaN value is among the arguments fed to the size
scale, instead of rejecting the input with an `invalid-value` error. -/
theorem C4_nonfinite_not_rejected :
    buildNodes [("A", JsNum.nan)] =
      [{ id := "A", originalName := "A", group := "A", value := JsNum.nan, visible := true }] ∧
    JsNum.nan ∈ sizeScaleArgs (buildNodes [("A", JsNum.nan)]) ∧
    buildLinks [("A", JsNum.nan), ("B", JsNum.fin 1)] [⟨"A", "B", JsNum.inf⟩] =
      [{ source := Endpoint.ref "A", target := Endpoint.ref "B", value := JsNum.inf }] := by
  exact ⟨rfl, by decide, rfl⟩

/-- Per-link inline style state (the d3 `.style(...)` attributes the
interaction handlers read and write): stroke opacity and stroke width. -/
structure LinkStyle where
  strokeOpacity : ℚ
  strokeWidth : ℚ
deriving DecidableEq

/-- The visual projection the interaction handlers mutate: inline styles of
the link, node and label selections, indexed in the order of the underlying
data arrays. -/
structure VisualState where
  linkStyles : List LinkStyle
  nodeOpacity : List ℚ
  labelOpacity : List ℚ
deriving DecidableEq

/-- The baseline projection: each link at its scaled stroke width (line 227)
and the default stroke opacity (`.link` CSS rule, equal to
`defaultLinkOpacity`), each node and label at `highlightOpacity` when visible
and `fadedOpacity` otherwise (visibility effect, lines 427-433). -/
def baselineState (nodes : List (Node ℚ)) (links : List (Link ℚ)) : VisualState :=
  { linkStyles := links.map fun l =>
      { strokeOpacity := config.defaultLinkOpacity, strokeWidth := linkScale links (jsAbs l.value) },
    nodeOpacity := nodes.map fun n =>
      if n.visible then config.highlightOpacity else config.fadedOpacity,
    labelOpacity := nodes.map fun n =>
      if n.visible then config.highlightOpacity else config.fadedOpacity }

/-- The link mouseover handler `highlightLink` (NetworkGraph.tsx lines
377-398) for the link at index `j`: the hovered line gets stroke opacity 1
and 1.5 times its scaled width, every other line drops to `fadedOpacity`
(widths untouched); nodes and labels get `highlightOpacity` when visible and
an endpoint of the hovered link, `fadedOpacity` otherwise. -/
def highlightLink (nodes : List (Node ℚ)) (links : List (Link ℚ)) (j : Nat)
    (vs : VisualState) : VisualState :=
  match links.get? j with
  | none => vs
  | some d =>
    let sourceId := endpointId d.source
    let targetId := endpointId d.target
    { linkStyles := vs.linkStyles.enum.map fun p =>
        if p.1 = j then
          { strokeOpacity := 1, strokeWidth := linkScale links (jsAbs d.value) * (3 / 2) }
        else { p.2 with strokeOpacity := config.fadedOpacity },
      nodeOpacity := nodes.map fun n =>
        if !n.visible then config.fadedOpacity
        else if n.id == sourceId || n.id == targetId then config.highlightOpacity
        else config.fadedOpacity,
      labelOpacity := nodes.map fun n =>
        if !n.visible then config.fadedOpacity
        else if n.id == sourceId || n.id == targetId then config.highlightOpacity
        else config.fadedOpacity }

/-- The link mouseout handler `resetLinkHighlight` (NetworkGraph.tsx lines
400-404): every line's stroke opacity back to `defaultLinkOpacity` — stroke
widths are not touched — and every node and label to `highlightOpacity` when
visible, `fadedOpacity` otherwise. -/
def resetLinkHighlight (nodes : List (Node ℚ)) (vs : VisualState) : VisualState :=
  { linkStyles := vs.linkStyles.map fun st =>
      { st with strokeOpacity := config.defaultLinkOpacity },
    nodeOpacity := nodes.map fun n =>
      if n.visible then config.highlightOpacity else config.fadedOpacity,
    labelOpacity := nodes.map fun n =>
      if n.visible then config.highlightOpacity else config.fadedOpacity }

/-- A two-node model with one positive link, used as the concrete graph for
the hover round trip. -/
def hoverDemoNodeData : List (String × ℚ) := [("A", 1), ("B", 1)]

/-- The single edge of the hover demo graph. -/
def hoverDemoEdgeData : List (EdgeData ℚ) := [⟨"A", "B", 1⟩]

/-- The nodes of the hover demo graph. -/
def hoverDemoNodes : List (Node ℚ) := buildNodes hoverDemoNodeData

/-- The links of the hover demo graph. -/
def hoverDemoLinks : List (Link ℚ) := buildLinks hoverDemoNodeData hoverDemoEdgeData

/-- Evidence for C6's failure: on the two-node graph with one link of value 1
(base scaled width 3), hovering the link and mousing out leaves the link's
stroke width at 4.5 = 1.5 × 3: `resetLinkHighlight` restores stroke opacity
but never restores the stroke width that `highlightLink` scaled by 1.5, so
the projection does not return to the baseline. -/
theorem C6_width_not_restored :
    (resetLinkHighlight hoverDemoNodes (highlightLink hoverDemoNodes hoverDemoLinks 0
        (baselineState hoverDemoNodes hoverDemoLinks))).linkStyles.map
        LinkStyle.strokeWidth = [9 / 2] ∧
    (baselineState hoverDemoNodes hoverDemoLinks).linkStyles.map
        LinkStyle.strokeWidth = [3] ∧
    resetLinkHighlight hoverDemoNodes (highlightLink hoverDemoNodes hoverDemoLinks 0
        (baselineState hoverDemoNodes hoverDemoLinks)) ≠
      baselineState hoverDemoNodes hoverDemoLinks := by
  have hscale : linkScale hoverDemoLinks (jsAbs 1) = 3 := by
    have h0 : ((hoverDemoLinks.map fun l => jsAbs l.value).max?) = some 1 := by
      show some (jsAbs 1) = some 1
      norm_num [jsAbs]
    simp only [linkScale, h0, jsOrOne]
    norm_num [jsAbs, config.minLinkWidth, config.maxLinkWidth]
  have h1 : (resetLinkHighlight hoverDemoNodes (highlightLink hoverDemoNodes hoverDemoLinks 0
      (baselineState hoverDemoNodes hoverDemoLinks))).linkStyles.map LinkStyle.strokeWidth =
      [linkScale hoverDemoLinks (jsAbs 1) * (3 / 2)] := rfl
  have h2 : (baselineState hoverDemoNodes hoverDemoLinks).linkStyles.map
      LinkStyle.strokeWidth = [linkScale hoverDemoLinks (jsAbs 1)] := rfl
  refine ⟨?_, ?_, ?_⟩
  · rw [h1, hscale]; norm_num
  · rw [h2, hscale]
  · intro hEq
    have hw := congrArg (fun vs => vs.linkStyles.map LinkStyle.strokeWidth) hEq
    simp only at hw
    rw [h1, h2, hscale] at hw
    simp only [List.cons.injEq, and_true] at hw
    norm_num at hw

/-- Resolve a `string | Node` endpoint against the node array, as in lines
331-334: an object endpoint is returned as is, a string id is looked up with
`nodes.find(n => n.id === l.source)` (which can miss, giving `undefined`). -/
def resolveEndpoint (nodes : List (Node ℚ)) : Endpoint ℚ → Option (Node ℚ)
  | Endpoint.node n => some n
  | Endpoint.ref s => nodes.find? fun n => n.id == s

/-- The qualification test of `highlightConnectedNodes` (lines 335-339): the
hovered node is one endpoint and the other endpoint is visible (in either
orientation, with the optional-chaining semantics `sourceNode?.id`,
`targetNode?.visible` being false on a missed lookup), and the link passes
the current sign filter. -/
def linkQualifies (nodes : List (Node ℚ)) (filter : FilterMode) (hoveredId : String)
    (l : Link ℚ) : Bool :=
  let sn := resolveEndpoint nodes l.source
  let tn := resolveEndpoint nodes l.target
  (((sn.elim false fun n => n.id == hoveredId) && tn.elim false Node.visible) ||
      ((tn.elim false fun n => n.id == hoveredId) && sn.elim false Node.visible)) &&
    isLinkVisible filter l

/-- The id contributed to the connected set by one resolved endpoint (lines
340-341: `if (sourceNode) connectedNodeIds.add(sourceNode.id)`). -/
def endpointIdList (o : Option (Node ℚ)) : List String := o.elim [] fun n => [n.id]

/-- The connected-set accumulation of `highlightConnectedNodes` (lines
326-344): starting from the hovered node's id, each qualifying link adds both
of its resolved endpoint ids.  JS `Set` membership is modelled by list
membership. -/
def connectedNodeIds (nodes : List (Node ℚ)) (links : List (Link ℚ)) (filter : FilterMode)
    (hoveredId : String) : List String :=
  links.foldl (fun acc l =>
    if linkQualifies nodes filter hoveredId l then
      acc ++ endpointIdList (resolveEndpoint nodes l.source) ++
        endpointIdList (resolveEndpoint nodes l.target)
    else acc) [hoveredId]

/-- The connected-link index set of `highlightConnectedNodes` (lines 327,
342): the indices of the qualifying links. -/
def connectedLinkIndices (nodes : List (Node ℚ)) (links : List (Link ℚ)) (filter : FilterMode)
    (hoveredId : String) : List Nat :=
  (links.enum.filter fun p => linkQualifies nodes filter hoveredId p.2).map Prod.fst

/-- The node mouseover handler `highlightConnectedNodes` (lines 318-364): a
no-op when the hovered node is not visible (line 320), otherwise qualifying
links get `highlightOpacity` and the others `fadedOpacity` (stroke colours
and CSS classes, which the claims do not mention, are outside the modelled
style record), and nodes/labels get `highlightOpacity` exactly when visible
and in the connected set. -/
def highlightConnectedNodes (nodes : List (Node ℚ)) (links : List (Link ℚ))
    (filter : FilterMode) (hovered : Node ℚ) (vs : VisualState) : VisualState :=
  if !hovered.visible then vs
  else
    let cIdx := connectedLinkIndices nodes links filter hovered.id
    let cIds := connectedNodeIds nodes links filter hovered.id
    { linkStyles := vs.linkStyles.enum.map fun p =>
        if cIdx.contains p.1 then { p.2 with strokeOpacity := config.highlightOpacity }
        else { p.2 with strokeOpacity := config.fadedOpacity },
      nodeOpacity := nodes.map fun n =>
        if !n.visible then config.fadedOpacity
        else if cIds.contains n.id then config.highlightOpacity else config.fadedOpacity,
      labelOpacity := nodes.map fun n =>
        if !n.visible then config.fadedOpacity
        else if cIds.contains n.id then config.highlightOpacity else config.fadedOpacity }

/-- Membership in a foldl that conditionally appends a contribution per
element: it is membership in the seed or a contribution of some passing
element. -/
theorem mem_foldl_if_append {β : Type} (q : β → Bool) (c1 c2 : β → List String)
    (links : List β) (init : List String) (x : String) :
    (x ∈ links.foldl (fun acc l => if q l then acc ++ c1 l ++ c2 l else acc) init) ↔
      x ∈ init ∨ ∃ l ∈ links, q l = true ∧ (x ∈ c1 l ∨ x ∈ c2 l) := by
  induction links generalizing init with
  | nil => simp
  | cons l rest ih =>
      rw [List.foldl_cons, ih]
      cases hq : q l with
      | true => simp [hq, List.mem_append, or_assoc]
      | false => simp [hq]

/-- Unfolding of the Boolean qualification test into the claim-level
description: the hovered node is one resolved endpoint, the other endpoint
resolves and is visible, and the link passes the sign filter. -/
theorem linkQualifies_eq_true_iff (nodes : List (Node ℚ)) (filter : FilterMode)
    (hoveredId : String) (l : Link ℚ) :
    linkQualifies nodes filter hoveredId l = true ↔
      ((∃ sn, resolveEndpoint nodes l.source = some sn ∧ sn.id = hoveredId ∧
          ∃ tn, resolveEndpoint nodes l.target = some tn ∧ tn.visible = true) ∨
        (∃ tn, resolveEndpoint nodes l.target = some tn ∧ tn.id = hoveredId ∧
          ∃ sn, resolveEndpoint nodes l.source = some sn ∧ sn.visible = true)) ∧
      isLinkVisible filter l = true := by
  unfold linkQualifies
  cases hsn : resolveEndpoint nodes l.source <;>
    cases htn : resolveEndpoint nodes l.target <;>
      simp [hsn, htn, Bool.and_eq_true, Bool.or_eq_true, beq_iff_eq, and_assoc]

/-- C5.  Hover behaviour: hovering a hidden node changes no visual state;
for a hovered node the connected id set is the hovered id plus, for each link
where the hovered node is one resolved endpoint, the other endpoint resolves
to a visible node and the link passes the filter predicate (in either
orientation), the other endpoint's id; and the connected link index set is
the set of indices of exactly those qualifying links. -/
theorem C5_hover_connected (nodes : List (Node ℚ)) (links : List (Link ℚ))
    (filter : FilterMode) (hovered : Node ℚ) (vs : VisualState) :
    (hovered.visible = false → highlightConnectedNodes nodes links filter hovered vs = vs) ∧
    (∀ x : String,
      x ∈ connectedNodeIds nodes links filter hovered.id ↔
        x = hovered.id ∨ ∃ l ∈ links,
          ((∃ sn, resolveEndpoint nodes l.source = some sn ∧ sn.id = hovered.id ∧
              ∃ tn, resolveEndpoint nodes l.target = some tn ∧ tn.visible = true ∧ tn.id = x) ∨
            (∃ tn, resolveEndpoint nodes l.target = some tn ∧ tn.id = hovered.id ∧
              ∃ sn, resolveEndpoint nodes l.source = some sn ∧ sn.visible = true ∧ sn.id = x)) ∧
          isLinkVisible filter l = true) ∧
    (∀ i : Nat,
      i ∈ connectedLinkIndices nodes links filter hovered.id ↔
        ∃ l, links[i]? = some l ∧
          ((∃ sn, resolveEndpoint nodes l.source = some sn ∧ sn.id = hovered.id ∧
              ∃ tn, resolveEndpoint nodes l.target = some tn ∧ tn.visible = true) ∨
            (∃ tn, resolveEndpoint nodes l.target = some tn ∧ tn.id = hovered.id ∧
              ∃ sn, resolveEndpoint nodes l.source = some sn ∧ sn.visible = true)) ∧
          isLinkVisible filter l = true) := by
  refine ⟨?_, ?_, ?_⟩
  · intro h
    simp [highlightConnectedNodes, h]
  · intro x
    rw [connectedNodeIds, mem_foldl_if_append]
    constructor
    · rintro (hx | ⟨l, hl, hq, hx⟩)
      · exact Or.inl (by simpa using hx)
      · rw [linkQualifies_eq_true_iff] at hq
        obtain ⟨hbranch, hfilter⟩ := hq
        rcases hbranch with ⟨sn, hsn, hsid, tn, htn, htv⟩ | ⟨tn, htn, htid, sn, hsn, hsv⟩
        · simp only [endpointIdList, hsn, htn, Option.elim_some, List.mem_singleton] at hx
          rcases hx with rfl | rfl
          · exact Or.inl hsid
          · exact Or.inr ⟨l, hl, Or.inl ⟨sn, hsn, hsid, tn, htn, htv, rfl⟩, hfilter⟩
        · simp only [endpointIdList, hsn, htn, Option.elim_some, List.mem_singleton] at hx
          rcases hx with rfl | rfl
          · exact Or.inr ⟨l, hl, Or.inr ⟨tn, htn, htid, sn, hsn, hsv, rfl⟩, hfilter⟩
          · exact Or.inl htid
    · rintro (rfl | ⟨l, hl, hbranch, hfilter⟩)
      · exact Or.inl (List.mem_singleton.mpr rfl)
      · rcases hbranch with ⟨sn, hsn, hsid, tn, htn, htv, rfl⟩ | ⟨tn, htn, htid, sn, hsn, hsv, rfl⟩
        · refine Or.inr ⟨l, hl, ?_, ?_⟩
          · rw [linkQualifies_eq_true_iff]
            exact ⟨Or.inl ⟨sn, hsn, hsid, tn, htn, htv⟩, hfilter⟩
          · simp [endpointIdList, hsn, htn]
        · refine Or.inr ⟨l, hl, ?_, ?_⟩
          · rw [linkQualifies_eq_true_iff]
            exact ⟨Or.inr ⟨tn, htn, htid, sn, hsn, hsv⟩, hfilter⟩
          · simp [endpointIdList, hsn, htn]
  · intro i
    simp only [connectedLinkIndices, List.mem_map, List.mem_filter]
    constructor
    · rintro ⟨⟨i', l⟩, ⟨hmem, hq⟩, rfl⟩
      exact ⟨l, List.mk_mem_enum_iff_getElem?.mp hmem,
        (linkQualifies_eq_true_iff nodes filter hovered.id l).mp hq⟩
    · rintro ⟨l, hget, hq⟩
      exact ⟨(i, l), ⟨List.mk_mem_enum_iff_getElem?.mpr hget,
        (linkQualifies_eq_true_iff nodes filter hovered.id l).mpr hq⟩, rfl⟩

/-- The spec's scenario node input: A↦10, B↦20, C↦15. -/
def scenarioNodeData : List (String × ℚ) := [("A", 10), ("B", 20), ("C", 15)]

/-- The spec's scenario edge input: A–B (5), B–C (−3), A–D (1, D absent). -/
def scenarioEdgeData : List (EdgeData ℚ) :=
  [⟨"A", "B", 5⟩, ⟨"B", "C", -3⟩, ⟨"A", "D", 1⟩]

/-- The scenario's constructed nodes. -/
def scenarioNodes : List (Node ℚ) := buildNodes scenarioNodeData

/-- The scenario's constructed links (the dangling A–D edge is dropped). -/
def scenarioLinks : List (Link ℚ) := buildLinks scenarioNodeData scenarioEdgeData

/-- The scenario's node B as constructed by the model. -/
def scenarioB : Node ℚ :=
  { id := "B", originalName := "B", group := "B", value := 20, visible := true }

/-- Witness for C5: hovering the visible node B under filter `all` puts C in
the connected set through the B–C link (B stored as source) and index 1 in
the connected link set, while hovering a hidden copy of B leaves the baseline
projection untouched. -/
theorem C5_hover_connected_witness :
    "C" ∈ connectedNodeIds scenarioNodes scenarioLinks FilterMode.all "B" ∧
    1 ∈ connectedLinkIndices scenarioNodes scenarioLinks FilterMode.all "B" ∧
    highlightConnectedNodes scenarioNodes scenarioLinks FilterMode.all
        { scenarioB with visible := false } (baselineState scenarioNodes scenarioLinks) =
      baselineState scenarioNodes scenarioLinks := by
  have h := C5_hover_connected scenarioNodes scenarioLinks FilterMode.all scenarioB
    (baselineState scenarioNodes scenarioLinks)
  have hhide := C5_hover_connected scenarioNodes scenarioLinks FilterMode.all
    { scenarioB with visible := false } (baselineState scenarioNodes scenarioLinks)
  refine ⟨?_, ?_, hhide.1 rfl⟩
  · refine (h.2.1 "C").mpr (Or.inr ⟨⟨Endpoint.ref "B", Endpoint.ref "C", -3⟩, ?_, ?_, rfl⟩)
    · show _ ∈ scenarioLinks
      decide
    · exact Or.inl ⟨scenarioB, rfl, rfl,
        { id := "C", originalName := "C", group := "C", value := 15, visible := true },
        rfl, rfl, rfl⟩
  · refine (h.2.2 1).mpr ⟨⟨Endpoint.ref "B", Endpoint.ref "C", -3⟩, rfl, ?_, rfl⟩
    exact Or.inl ⟨scenarioB, rfl, rfl,
      { id := "C", originalName := "C", group := "C", value := 15, visible := true }, rfl, rfl⟩

/-- The component state relevant to a filter change, with the React rendering
mechanics made explicit: `currentFilter` is the state set by
`setCurrentFilter`; `effectFilterDep` records the `currentFilter` captured by
the `isLinkVisible` callback identity in the main effect's dependency array
`[nodeData, edgeData, isLinkVisible]` when the main effect last ran
(`useCallback` at lines 66-75 recreates `isLinkVisible` exactly when
`currentFilter` changes; `nodeData`/`edgeData` are fixed props here);
`simGeneration` counts how many force simulations have been constructed
(line 199-218, one per main-effect run, the superseded one stopped by the
cleanup at lines 418-420). -/
structure CompState where
  nodeData : List (String × ℚ)
  edgeData : List (EdgeData ℚ)
  currentFilter : FilterMode
  effectFilterDep : FilterMode
  nodesArray : List (Node ℚ)
  linksArray : List (Link ℚ)
  simGeneration : Nat
deriving DecidableEq

/-- One run of the main effect (lines 150-421): rebuild the node and link
arrays from the raw input (discarding any positions the old node objects
carried) and construct a fresh force simulation, recording the captured
`isLinkVisible` identity. -/
def runMainEffect (s : CompState) : CompState :=
  { s with
    effectFilterDep := s.currentFilter,
    nodesArray := buildNodes s.nodeData,
    linksArray := buildLinks s.nodeData s.edgeData,
    simGeneration := s.simGeneration + 1 }

/-- The re-render following a state update: React re-runs the main effect
exactly when an entry of its dependency array changed; with fixed
`nodeData`/`edgeData` props that happens exactly when the `isLinkVisible`
identity — i.e. the captured `currentFilter` — changed. -/
def renderCycle (s : CompState) : CompState :=
  if s.effectFilterDep ≠ s.currentFilter then runMainEffect s else s

/-- A filter change (lines 142-144: `showNegativeLinks`, `showPositiveLinks`,
`resetView` call `setCurrentFilter`), followed by the induced re-render. -/
def setFilter (mode : FilterMode) (s : CompState) : CompState :=
  renderCycle { s with currentFilter := mode }

/-- A settled component over the single node A at position x = 5, with filter
`all` and one force simulation built. -/
def settledState : CompState :=
  { nodeData := [("A", 1)],
    edgeData := [],
    currentFilter := FilterMode.all,
    effectFilterDep := FilterMode.all,
    nodesArray := (buildNodes [("A", (1 : ℚ))]).map fun n => { n with x := some 5, y := some 6 },
    linksArray := [],
    simGeneration := 1 }

/-- Evidence for C3's failure: switching the filter from `all` to `negative`
on the settled component re-runs the main effect — the `isLinkVisible` entry
of its dependency array changed — so a second force simulation is built
(`simGeneration` 1 → 2) and the node array is rebuilt from scratch, losing
the node's position (x drops from `some 5` to `none`); the filter mode itself
is set as claimed. -/
theorem C3_filter_rebuilds_simulation :
    (setFilter FilterMode.negative settledState).currentFilter = FilterMode.negative ∧
    (setFilter FilterMode.negative settledState).simGeneration = 2 ∧
    settledState.simGeneration = 1 ∧
    ((setFilter FilterMode.negative settledState).nodesArray.map Node.x) = [none] ∧
    (settledState.nodesArray.map Node.x) = [some 5] := by
  refine ⟨rfl, rfl, rfl, rfl, rfl⟩

end NG
